import Mathlib

/-!
Verification of the NAMA Compliance Agent pipeline.

Shallow embedding of `src/app.py` (hybrid text/OCR extraction, batched
analysis, the `as_completed` merge loop, missing-document scoring, WRAS
online verification) and of `src/pages/compliance.py` (compliance-table
metrics).  Remote services (Gemini, Mistral OCR, the WRAS directory) are
modelled as explicit oracle parameters; Python strings are Lean strings,
the Python set of missing categories is a `Finset String`, Python ints
are `Int`/`Nat`, and the score arithmetic is exact rational arithmetic
with Python's round-half-to-even.
-/

namespace NamaAudit

-- ## String helpers (Python primitives used by the source)

/-- Python `needle in hay` prefix step: does `hay` begin with `needle`? -/
def beginsWith : List Char → List Char → Bool
  | [], _ => true
  | _ :: _, [] => false
  | a :: as, b :: bs => a == b && beginsWith as bs

/-- Python `needle in hay` for strings, over code-point lists. -/
def containsSub (needle : List Char) : List Char → Bool
  | [] => beginsWith needle []
  | c :: rest => beginsWith needle (c :: rest) || containsSub needle rest

/-- Python `s[:n]`: the first `n` code points of `s`. -/
def pyTake (s : String) (n : Nat) : String := String.mk (s.data.take n)

/-- Lowercasing, modelling Python `str.lower` / pandas `case=False`. -/
def lowerStr (s : String) : String := String.mk (s.data.map Char.toLower)

/-- Case-insensitive substring test (pandas `.str.contains(pat, case=False)`). -/
def containsCI (needle hay : String) : Bool :=
  containsSub (lowerStr needle).data (lowerStr hay).data

-- ## Batching (src/app.py lines 193-194)

/-- Python slice `l[i:j]` for `i ≤ j` (the only form the source uses). -/
def pySlice (l : List α) (i j : Nat) : List α := (l.drop i).take (j - i)

/-- `batches = [all_texts[i:i + batch_size] for i in range(0, len(all_texts), batch_size)]`
with `batch_size = 8`; `range(0, N, 8)` has `(N + 7) / 8` elements. -/
def batches (l : List α) : List (List α) :=
  (List.range' 0 ((l.length + 7) / 8) 8).map (fun i => pySlice l i (i + 8))

/-- Recursive characterisation of the batch comprehension. -/
def chunks8 : List α → List (List α)
  | [] => []
  | a :: rest => ((a :: rest).take 8) :: chunks8 ((a :: rest).drop 8)
termination_by l => l.length
decreasing_by simp only [List.length_drop, List.length_cons]; omega

-- ## Compliance-report page metrics (src/pages/compliance.py lines 89-105)

/-- One row of the extracted compliance table (Standard_Section, Status, Remark). -/
structure ComplianceRow where
  standard_section : String
  status : String
  remark : String
deriving DecidableEq

/-- Row filter: `Status` contains "Comply" but not "Not", case-insensitively. -/
def isCompliantStatus (s : String) : Bool :=
  containsCI "Comply" s && !(containsCI "Not" s)

/-- `num_comply = len(compliant_df)`. -/
def num_comply (rows : List ComplianceRow) : Nat :=
  (rows.filter (fun r => isCompliantStatus r.status)).length

/-- `num_non_comply = total_items - num_comply` (Python ints, so over ℤ). -/
def num_non_comply (rows : List ComplianceRow) : Int :=
  (rows.length : Int) - (num_comply rows : Int)

/-- `compliance_pct = (num_comply / total_items) * 100 if total_items > 0 else 0.0`. -/
def compliance_pct (rows : List ComplianceRow) : ℚ :=
  if 0 < rows.length then ((num_comply rows : ℚ) / (rows.length : ℚ)) * 100 else 0

-- ## Required-document catalog (src/app.py lines 27-42)

/-- `REQUIRED_DOCS`: the fixed 14-entry catalog of expected document categories. -/
def REQUIRED_DOCS : List String := [
  "1- Fees application receipt copy.",
  "2- Nama water services vendor registeration certificates...",
  "3- Certificate of incorporation of the firm...",
  "4- Manufacturing Process flow chart...",
  "5-Valid copies certificates of (ISO 9001, ISO 45001 & ISO 14001).",
  "6- Factory Layout chart.",
  "7-Factory Organizational structure...",
  "8- Product Compliance Statement...",
  "9- Product Technical datasheets.",
  "10- Omanisation details...",
  "11- Product Independent Test certificates.",
  "12- Attestation of Sanitary Conformity...",
  "13- Provide products Chemicals Composition...",
  "14- Reference list of products used in Oman..."
]

/-- The catalog as a set, seeding `missing_documents = set(REQUIRED_DOCS)`. -/
def catalogSet : Finset String := REQUIRED_DOCS.toFinset

-- ## Document reading (src/app.py lines 50-99)

/-- Oracles for the remote and library calls `extract_text_smart` makes for one
file: `pdfRead` is the pypdf text-layer attempt (each page's `extract_text()`
result, `none` when a page yields `None`; `Except.error` when the attempt
raises), and `ocr` is the Mistral OCR call, taking the requested zero-based
page list and the `include_image_base64` flag and returning the per-page
markdown (or raising). -/
structure ExtractionEnv where
  pdfRead : Except String (List (Option String))
  ocr : List Nat → Bool → Except String (List String)

/-- The text-layer accumulation loop: concatenate the extracted text of the
first `min 3 pageCount` pages, skipping `None`/empty results
(`if page_text: text += page_text`). -/
def concatPages (pages : List (Option String)) : String :=
  (pages.take (min 3 pages.length)).foldl
    (fun acc p => match p with
      | some s => if s = "" then acc else acc ++ s
      | none => acc) ""

/-- The OCR concatenation loop: `ocr_text += page.markdown + "\n\n"`. -/
def ocrJoin (mds : List String) : String :=
  mds.foldl (fun acc m => acc ++ m ++ "\n\n") ""

/-- `extract_text_smart`: hybrid text-layer / OCR extraction for one file.
Method 1 reads the first `min 3 pageCount` pages and returns immediately
(tagged "Extracted via Text Layer", payload capped at 15000 characters)
when the stripped text exceeds 100 characters; otherwise the whole file is
submitted to Mistral OCR with `pages=[0, 1, 2]` and
`include_image_base64=False` (tagged "Extracted via Mistral OCR", same
cap).  Any OCR failure is converted to an explanatory error string. -/
def extract_text_smart (name : String) (env : ExtractionEnv) : String :=
  let method1 : Option String :=
    match env.pdfRead with
    | .ok pages =>
      let text := concatPages pages
      if 100 < text.trim.length then
        some ("FILE_NAME: " ++ name ++ "\n(Extracted via Text Layer)\n" ++ pyTake text 15000)
      else none
    | .error _ => none
  match method1 with
  | some r => r
  | none =>
    match env.ocr [0, 1, 2] false with
    | .ok mds =>
      "FILE_NAME: " ++ name ++ "\n(Extracted via Mistral OCR)\n" ++ pyTake (ocrJoin mds) 15000
    | .error e => "Error reading " ++ name ++ ": " ++ e

-- ## Batched AI analysis (src/app.py lines 109-152)

/-- A JSON value, as produced by `json.loads` on the model response. -/
inductive Json where
  | null : Json
  | bool (b : Bool) : Json
  | num (n : Int) : Json
  | str (s : String) : Json
  | arr (elems : List Json) : Json
  | obj (fields : List (String × Json)) : Json

/-- Outcome of the remote `generate_content` call plus `json.loads`:
either the call raised, or it returned text that parses to `some` JSON
value (`none` when parsing fails, raising inside the same `try`). -/
inductive CallOutcome where
  | exn : CallOutcome
  | response (parsed : Option Json) : CallOutcome

/-- `analyze_batch` result handling: parse the response as JSON; a top-level
array is unwrapped with `data[0]` (an empty array makes that indexing raise,
landing in the same `except` handler); any exception yields the empty
object. -/
def analyze_batch (outcome : CallOutcome) : Json :=
  match outcome with
  | .exn => Json.obj []
  | .response none => Json.obj []
  | .response (some data) =>
    match data with
    | .arr [] => Json.obj []
    | .arr (x :: _) => x
    | d => d

-- ## Online WRAS checker (src/app.py lines 155-167)

/-- Outcome of `requests.get`: a response with a status code and body text,
or a raised transport/timeout failure. -/
inductive HttpOutcome where
  | success (statusCode : Nat) (body : String) : HttpOutcome
  | failure : HttpOutcome

/-- A verification result dict: status, optional `online_id`, and URL. -/
structure VerificationResult where
  status : String
  online_id : Option String
  url : String
deriving DecidableEq

/-- The constructed directory lookup URL. -/
def search_url (wras_id : String) : String :=
  "https://www.wrasapprovals.co.uk/approvals-directory/?search=" ++ wras_id

/-- The "No results found" marker test on the response body. -/
def containsMarker (body : String) : Bool :=
  containsSub "No results found".data body.data

/-- `verify_wras_online`: skip empty/placeholder identifiers without any
network call; otherwise classify the directory lookup (`net` is the
`requests.get` oracle, keyed by URL). -/
def verify_wras_online (wras_id : Option String) (net : String → HttpOutcome) :
    VerificationResult :=
  match wras_id with
  | none => { status := "Skipped", online_id := none, url := "#" }
  | some id =>
    if id = "" ∨ id = "N/A" then { status := "Skipped", online_id := none, url := "#" }
    else
      match net (search_url id) with
      | .success code body =>
        if code = 200 ∧ containsMarker body = false then
          { status := "Active", online_id := some id, url := search_url id }
        else
          { status := "Not Found", online_id := none, url := search_url id }
      | .failure => { status := "Error", online_id := none, url := search_url id }

-- ## Aggregation and scoring (src/app.py lines 185-229)

/-- One `iso_analysis` entry. -/
structure IsoFinding where
  standard : String
  expiry_date : String
  days_remaining : Int
  compliance_status : String
deriving DecidableEq

/-- One `found_documents` entry; `.get` on a dict yields an optional value. -/
structure FoundDoc where
  filename : Option String
  category : Option String
  status : Option String
deriving DecidableEq

/-- The `wras_analysis` dict: a truthy `found` flag and an optional id. -/
structure WrasAnalysis where
  found : Bool
  wras_id : Option String
deriving DecidableEq

/-- One batch's analysis result, as consumed by the merge loop.
`wras_analysis = none` models a missing or non-dict `wras_analysis` entry
(the merge loop skips those exactly as it skips a falsy `found`). -/
structure BatchResult where
  iso_analysis : List IsoFinding
  found_documents : List FoundDoc
  wras_analysis : Option WrasAnalysis
deriving DecidableEq

/-- The typed image of the empty PartialReport `{}`: every `.get` falls back
to its default (`[]` for the lists, a falsy `wras_analysis`). -/
def emptyBatchResult : BatchResult :=
  { iso_analysis := [], found_documents := [], wras_analysis := none }

/-- The aggregate report built by the Run Audit handler. -/
structure FinalReport where
  iso_analysis : List IsoFinding
  wras_analysis : WrasAnalysis
  found_documents : List FoundDoc
  missing_documents : Finset String
  wras_online_check : VerificationResult

/-- `final_report` as initialised at src/app.py lines 185-191. -/
def initialReport : FinalReport :=
  { iso_analysis := []
    wras_analysis := { found := false, wras_id := none }
    found_documents := []
    missing_documents := catalogSet
    wras_online_check := { status := "N/A", online_id := none, url := "#" } }

/-- One iteration of the `as_completed` merge loop (src/app.py lines 200-208):
append `iso_analysis` and `found_documents`, and overwrite `wras_analysis`
only when the batch's claim has a truthy `found`. -/
def mergeStep (acc : FinalReport) (r : BatchResult) : FinalReport :=
  { acc with
    iso_analysis := acc.iso_analysis ++ r.iso_analysis
    found_documents := acc.found_documents ++ r.found_documents
    wras_analysis :=
      match r.wras_analysis with
      | some w => if w.found then w else acc.wras_analysis
      | none => acc.wras_analysis }

/-- The whole merge loop over batch results in completion order. -/
def mergeBatches (results : List BatchResult) : FinalReport :=
  results.foldl mergeStep initialReport

/-- The positive WRAS claims (truthy `found`) of a result list, in order. -/
def positives (rs : List BatchResult) : List WrasAnalysis :=
  rs.filterMap (fun r =>
    match r.wras_analysis with
    | some w => if w.found then some w else none
    | none => none)

/-- One iteration of the missing-documents post-processing loop
(src/app.py lines 211-214): `if doc_type in missing: missing.remove(doc_type)`. -/
def removeCat (m : Finset String) (d : FoundDoc) : Finset String :=
  match d.category with
  | some c => if c ∈ m then m.erase c else m
  | none => m

/-- The whole missing-documents post-processing loop. -/
def processFound (missing : Finset String) (docs : List FoundDoc) : Finset String :=
  docs.foldl removeCat missing

/-- The categories claimed by the found-document records, as a set. -/
def foundCats (docs : List FoundDoc) : Finset String :=
  (docs.filterMap (fun d => d.category)).toFinset

/-- Post-processing after the merge loop (src/app.py lines 210-218): shrink
the missing set, then run the online WRAS check only for a truthy
(non-`None`, non-empty) extracted identifier. -/
def postProcess (rep : FinalReport) (net : String → HttpOutcome) : FinalReport :=
  let shrunk := { rep with missing_documents := processFound rep.missing_documents rep.found_documents }
  match shrunk.wras_analysis.wras_id with
  | some id =>
    if id = "" then shrunk
    else { shrunk with wras_online_check := verify_wras_online (some id) net }
  | none => shrunk

/-- The Run Audit pipeline from batch results (in completion order) to the
final report stored in session state. -/
def runAudit (results : List BatchResult) (net : String → HttpOutcome) : FinalReport :=
  postProcess (mergeBatches results) net

/-- Floor of a rational, computed from its reduced fraction. -/
def pyFloor (q : ℚ) : Int := Int.fdiv q.num q.den

/-- Python `round` to an integer: round-half-to-even. -/
def roundHalfEven (q : ℚ) : Int :=
  if q - pyFloor q < 1 / 2 then pyFloor q
  else if 1 / 2 < q - pyFloor q then pyFloor q + 1
  else if pyFloor q % 2 = 0 then pyFloor q else pyFloor q + 1

/-- Python `round(x, 2)` over exact rationals. -/
def pyRound2 (q : ℚ) : ℚ := (roundHalfEven (q * 100) : ℚ) / 100

/-- `doc_score = round(((14 - no_of_missing_docs) / 14) * 100, 2)`
(src/app.py lines 228-229). -/
def doc_score (rep : FinalReport) : ℚ :=
  pyRound2 (((14 - (rep.missing_documents.card : ℚ)) / 14) * 100)

/-- A batch result whose found documents cover the whole catalog (used as a
concrete scenario input). -/
def coveringBatch : BatchResult :=
  { iso_analysis := []
    found_documents := REQUIRED_DOCS.map
      (fun c => { filename := some "f.pdf", category := some c, status := some "Valid" })
    wras_analysis := none }

/-- A batch result carrying a positive WRAS claim (concrete scenario input). -/
def positiveBatch : BatchResult :=
  { iso_analysis := [], found_documents := []
    wras_analysis := some { found := true, wras_id := some "W123" } }

/-- A concrete extraction environment: a short text layer and a working OCR
oracle (scenario input). -/
def sampleEnv : ExtractionEnv :=
  { pdfRead := Except.ok [some "short text"], ocr := fun _ _ => Except.ok ["ocr page"] }

/-- A batch result with a positive WRAS claim for id "A" (scenario input). -/
def batchA : BatchResult :=
  { iso_analysis := [], found_documents := []
    wras_analysis := some { found := true, wras_id := some "A" } }

/-- A batch result with a positive WRAS claim for id "B" (scenario input). -/
def batchB : BatchResult :=
  { iso_analysis := [], found_documents := []
    wras_analysis := some { found := true, wras_id := some "B" } }

/-- A found record claiming a genuine catalog category (scenario input). -/
def layoutDoc : FoundDoc :=
  { filename := some "a.pdf", category := some "6- Factory Layout chart."
    status := some "Valid" }

/-- A found record claiming a category outside the catalog (scenario input). -/
def unknownDoc : FoundDoc :=
  { filename := some "b.pdf", category := some "Unknown Category"
    status := some "Valid" }

-- ## Supporting lemmas

theorem pyTake_length_le (s : String) (n : Nat) : (pyTake s n).length ≤ n :=
  List.length_take_le n s.data

theorem range'_shift8 (k s : Nat) :
    List.range' (s + 8) k 8 = (List.range' s k 8).map (fun i => i + 8) := by
  induction k generalizing s with
  | zero => rfl
  | succ k ih =>
    rw [List.range'_succ, List.range'_succ, List.map_cons, ih (s + 8)]

theorem batches_eq_chunks8 (l : List α) : batches l = chunks8 l := by
  induction l using chunks8.induct with
  | case1 =>
    rw [chunks8]
    simp [batches, List.range']
  | case2 a rest ih =>
    have hd : ((a :: rest).drop 8).length = (a :: rest).length - 8 :=
      List.length_drop 8 (a :: rest)
    have hlen : ((a :: rest).length + 7) / 8 =
        (((a :: rest).drop 8).length + 7) / 8 + 1 := by
      rw [hd]
      simp only [List.length_cons]
      omega
    rw [chunks8, ← ih]
    unfold batches
    rw [hlen, List.range'_succ, List.map_cons]
    have h0 : pySlice (a :: rest) 0 (0 + 8) = (a :: rest).take 8 := by
      simp [pySlice]
    rw [h0]
    congr 1
    have h8 : (0 : Nat) + 8 = 8 := rfl
    rw [← h8, range'_shift8, List.map_map]
    apply List.map_congr_left
    intro i _
    simp only [Function.comp_apply]
    unfold pySlice
    rw [List.drop_drop]
    have h1 : i + 8 + 8 - (i + 8) = 8 := by omega
    have h2 : i + 8 - i = 8 := by omega
    have h3 : 8 + i = i + 8 := by omega
    rw [h1, h2, h3]

theorem chunks8_flatten (l : List α) : (chunks8 l).flatten = l := by
  induction l using chunks8.induct with
  | case1 => rw [chunks8]; rfl
  | case2 a rest ih =>
    rw [chunks8, List.flatten_cons, ih, List.take_append_drop]

theorem chunks8_mem_length (l : List α) : ∀ b ∈ chunks8 l, b.length ≤ 8 := by
  induction l using chunks8.induct with
  | case1 => intro b hb; rw [chunks8] at hb; simp at hb
  | case2 a rest ih =>
    intro b hb
    rw [chunks8] at hb
    rcases List.mem_cons.mp hb with h | h
    · subst h
      exact List.length_take_le 8 (a :: rest)
    · exact ih b h

theorem chunks8_length (l : List α) : (chunks8 l).length = (l.length + 7) / 8 := by
  induction l using chunks8.induct with
  | case1 => rw [chunks8]; simp
  | case2 a rest ih =>
    rw [chunks8, List.length_cons, ih]
    rw [List.length_drop]
    simp only [List.length_cons]
    omega

theorem num_comply_le (rows : List ComplianceRow) : num_comply rows ≤ rows.length :=
  List.length_filter_le _ rows

theorem getLast?_cons_getD (a d : α) (l : List α) :
    ((a :: l).getLast?).getD d = (l.getLast?).getD a := by
  cases l with
  | nil => rfl
  | cons b t => rw [List.getLast?_cons_cons]; rfl

theorem foldl_mergeStep_wras (rs : List BatchResult) (acc : FinalReport) :
    (rs.foldl mergeStep acc).wras_analysis =
      ((positives rs).getLast?).getD acc.wras_analysis := by
  induction rs generalizing acc with
  | nil => rfl
  | cons r rest ih =>
    rw [List.foldl_cons, ih (mergeStep acc r)]
    cases hw : r.wras_analysis with
    | none =>
      have hp : positives (r :: rest) = positives rest := by
        simp [positives, List.filterMap_cons, hw]
      have hm : (mergeStep acc r).wras_analysis = acc.wras_analysis := by
        simp [mergeStep, hw]
      rw [hp, hm]
    | some w =>
      cases hf : w.found with
      | false =>
        have hp : positives (r :: rest) = positives rest := by
          simp [positives, List.filterMap_cons, hw, hf]
        have hm : (mergeStep acc r).wras_analysis = acc.wras_analysis := by
          simp [mergeStep, hw, hf]
        rw [hp, hm]
      | true =>
        have hp : positives (r :: rest) = w :: positives rest := by
          simp [positives, List.filterMap_cons, hw, hf]
        have hm : (mergeStep acc r).wras_analysis = w := by
          simp [mergeStep, hw, hf]
        rw [hp, hm, getLast?_cons_getD]

theorem foldl_mergeStep_missing (rs : List BatchResult) (acc : FinalReport) :
    (rs.foldl mergeStep acc).missing_documents = acc.missing_documents := by
  induction rs generalizing acc with
  | nil => rfl
  | cons r rest ih => rw [List.foldl_cons, ih (mergeStep acc r)]; rfl

theorem foldl_mergeStep_check (rs : List BatchResult) (acc : FinalReport) :
    (rs.foldl mergeStep acc).wras_online_check = acc.wras_online_check := by
  induction rs generalizing acc with
  | nil => rfl
  | cons r rest ih => rw [List.foldl_cons, ih (mergeStep acc r)]; rfl

theorem mergeBatches_missing (rs : List BatchResult) :
    (mergeBatches rs).missing_documents = catalogSet :=
  foldl_mergeStep_missing rs initialReport

theorem removeCat_eq (m : Finset String) (d : FoundDoc) :
    removeCat m d = (match d.category with
      | some c => m.erase c
      | none => m) := by
  cases hd : d.category with
  | none => simp [removeCat, hd]
  | some c =>
    simp only [removeCat, hd]
    by_cases hc : c ∈ m
    · rw [if_pos hc]
    · rw [if_neg hc, Finset.erase_eq_of_not_mem hc]

theorem erase_sdiff (m s : Finset String) (c : String) :
    m.erase c \ s = m \ insert c s := by
  ext x
  simp only [Finset.mem_sdiff, Finset.mem_erase, Finset.mem_insert]
  tauto

theorem processFound_eq_sdiff (docs : List FoundDoc) (m : Finset String) :
    processFound m docs = m \ foundCats docs := by
  induction docs generalizing m with
  | nil => simp [processFound, foundCats]
  | cons d rest ih =>
    have hstep : processFound m (d :: rest) = processFound (removeCat m d) rest := rfl
    rw [hstep, ih]
    cases hd : d.category with
    | none =>
      have h1 : removeCat m d = m := by rw [removeCat_eq, hd]
      have h2 : foundCats (d :: rest) = foundCats rest := by
        simp [foundCats, List.filterMap_cons, hd]
      rw [h1, h2]
    | some c =>
      have h1 : removeCat m d = m.erase c := by rw [removeCat_eq, hd]
      have h2 : foundCats (d :: rest) = insert c (foundCats rest) := by
        simp [foundCats, List.filterMap_cons, hd]
      rw [h1, h2, erase_sdiff]

theorem postProcess_missing (rep : FinalReport) (net : String → HttpOutcome) :
    (postProcess rep net).missing_documents =
      processFound rep.missing_documents rep.found_documents := by
  rcases h : rep.wras_analysis.wras_id with _ | id
  · simp [postProcess, h]
  · simp only [postProcess, h]
    split <;> rfl

theorem runAudit_missing (rs : List BatchResult) (net : String → HttpOutcome) :
    (runAudit rs net).missing_documents =
      catalogSet \ foundCats (mergeBatches rs).found_documents := by
  rw [runAudit, postProcess_missing, mergeBatches_missing, processFound_eq_sdiff]

theorem catalogSet_card : catalogSet.card = 14 := by decide

theorem mergeBatches_check (rs : List BatchResult) :
    (mergeBatches rs).wras_online_check
      = { status := "N/A", online_id := none, url := "#" } :=
  foldl_mergeStep_check rs initialReport

theorem postProcess_check_of_none (rep : FinalReport) (net : String → HttpOutcome)
    (h : rep.wras_analysis.wras_id = none) :
    (postProcess rep net).wras_online_check = rep.wras_online_check := by
  simp [postProcess, h]

theorem postProcess_check_of_empty (rep : FinalReport) (net : String → HttpOutcome)
    (h : rep.wras_analysis.wras_id = some "") :
    (postProcess rep net).wras_online_check = rep.wras_online_check := by
  simp [postProcess, h]

theorem postProcess_check_of_some (rep : FinalReport) (net : String → HttpOutcome)
    (id : String) (h : rep.wras_analysis.wras_id = some id) (hne : id ≠ "") :
    (postProcess rep net).wras_online_check = verify_wras_online (some id) net := by
  simp [postProcess, h, hne]

theorem verify_wras_success (id : String) (net : String → HttpOutcome)
    (code : Nat) (body : String) (hne : id ≠ "") (hna : id ≠ "N/A")
    (hnet : net (search_url id) = HttpOutcome.success code body) :
    verify_wras_online (some id) net =
      (if code = 200 ∧ containsMarker body = false then
        { status := "Active", online_id := some id, url := search_url id }
      else
        { status := "Not Found", online_id := none, url := search_url id }) := by
  have h : ¬(id = "" ∨ id = "N/A") := by
    rintro (h1 | h2)
    · exact hne h1
    · exact hna h2
  simp only [verify_wras_online, hnet]
  rw [if_neg h]

theorem verify_wras_failure (id : String) (net : String → HttpOutcome)
    (hne : id ≠ "") (hna : id ≠ "N/A")
    (hnet : net (search_url id) = HttpOutcome.failure) :
    verify_wras_online (some id) net
      = { status := "Error", online_id := none, url := search_url id } := by
  have h : ¬(id = "" ∨ id = "N/A") := by
    rintro (h1 | h2)
    · exact hne h1
    · exact hna h2
  simp only [verify_wras_online, hnet]
  rw [if_neg h]

theorem pyRound2_zero : pyRound2 0 = 0 := by
  have h1 : ((0 : ℚ) * 100) = 0 := by norm_num
  have h2 : pyFloor 0 = 0 := by
    rw [pyFloor]
    norm_num [Int.fdiv_eq_tdiv]
  rw [pyRound2, h1, roundHalfEven, h2]
  norm_num

theorem pyRound2_hundred : pyRound2 100 = 100 := by
  have h1 : ((100 : ℚ) * 100) = 10000 := by norm_num
  have h2 : pyFloor 10000 = 10000 := by
    rw [pyFloor]
    norm_num [Rat.num_ofNat, Rat.den_ofNat, Int.fdiv_eq_tdiv]
  rw [pyRound2, h1, roundHalfEven, h2]
  norm_num

-- ## Claim theorems

/-- C1 counterexample: two batch results both carrying a positive WRAS claim,
in completion order.  The merge loop retains the claim of the second
(later) batch, not the first: the claim "the first positive claim wins and
every later positive claim is ignored" is false on the code. -/
theorem C1_counterexample :
    (mergeBatches [batchA, batchB]).wras_analysis
      = { found := true, wras_id := some "B" }
    ∧ ({ found := true, wras_id := some "B" } : WrasAnalysis)
      ≠ { found := true, wras_id := some "A" } := by
  constructor
  · rfl
  · decide

/-- C1 (amended): the merge loop retains exactly one WRAS claim — it
overwrites the running claim on every batch whose `wras_analysis.found` is
truthy, so the LAST positive claim in completion order wins and negative
claims never overwrite; with no positive claim the initial
`{found: False, wras_id: None}` survives. -/
theorem C1_last_positive_wins (rs : List BatchResult) :
    (mergeBatches rs).wras_analysis =
      ((positives rs).getLast?).getD { found := false, wras_id := none } :=
  foldl_mergeStep_wras rs initialReport

/-- C2: the missing set is always a subset of the catalog; a found-document
record whose Category is not an exact member of the (current, catalog-seeded)
missing set removes nothing; after post-processing the missing set is
disjoint from the found catalog categories and together with them covers the
catalog. -/
theorem C2_missing_set_invariants (docs : List FoundDoc) (m : Finset String)
    (d : FoundDoc) (hm : m ⊆ catalogSet)
    (hd : ∀ c, d.category = some c → c ∉ catalogSet) :
    processFound catalogSet docs ⊆ catalogSet
    ∧ processFound m [d] = m
    ∧ Disjoint (processFound catalogSet docs) (foundCats docs ∩ catalogSet)
    ∧ processFound catalogSet docs ∪ (foundCats docs ∩ catalogSet) = catalogSet := by
  refine ⟨?_, ?_, ?_, ?_⟩
  · rw [processFound_eq_sdiff]
    exact Finset.sdiff_subset
  · rw [processFound_eq_sdiff]
    cases hc : d.category with
    | none =>
      have h1 : foundCats [d] = ∅ := by simp [foundCats, List.filterMap_cons, hc]
      rw [h1, Finset.sdiff_empty]
    | some c =>
      have hfc : foundCats [d] = {c} := by simp [foundCats, List.filterMap_cons, hc]
      have hcm : c ∉ m := fun hcm => hd c hc (hm hcm)
      rw [hfc]
      ext x
      simp only [Finset.mem_sdiff, Finset.mem_singleton]
      constructor
      · exact fun hx => hx.1
      · intro hx
        exact ⟨hx, fun hxc => hcm (hxc ▸ hx)⟩
  · rw [processFound_eq_sdiff]
    have h1 : Disjoint (catalogSet \ foundCats docs) (catalogSet ∩ foundCats docs) :=
      Finset.disjoint_sdiff_inter catalogSet (foundCats docs)
    rwa [Finset.inter_comm] at h1
  · rw [processFound_eq_sdiff]
    ext x
    simp only [Finset.mem_union, Finset.mem_sdiff, Finset.mem_inter]
    tauto

/-- Witness for C2 at a concrete found record (a real catalog entry) and a
concrete off-catalog record ("Unknown Category"). -/
theorem C2_missing_set_invariants_witness :
    (catalogSet ⊆ catalogSet
     ∧ (∀ c, unknownDoc.category = some c → c ∉ catalogSet))
    ∧ (processFound catalogSet [layoutDoc] ⊆ catalogSet
      ∧ processFound catalogSet [unknownDoc] = catalogSet
      ∧ Disjoint (processFound catalogSet [layoutDoc]) (foundCats [layoutDoc] ∩ catalogSet)
      ∧ processFound catalogSet [layoutDoc] ∪ (foundCats [layoutDoc] ∩ catalogSet)
          = catalogSet) := by
  have hm : catalogSet ⊆ catalogSet := Finset.Subset.refl _
  have hd : ∀ c, unknownDoc.category = some c → c ∉ catalogSet := by
    intro c hc
    have hc' : some "Unknown Category" = some c := hc
    injection hc' with h
    subst h
    decide
  exact ⟨⟨hm, hd⟩, C2_missing_set_invariants [layoutDoc] catalogSet unknownDoc hm hd⟩

/-- C3: the displayed score is round(((14 - missing) / 14) * 100, 2); with no
batch results the missing set is the full 14-entry catalog and the score is
0; when the found records cover all 14 catalog categories the missing set is
empty and the score is 100. -/
theorem C3_score_formula (rs : List BatchResult) (net : String → HttpOutcome)
    (hcov : ∀ c ∈ catalogSet, c ∈ foundCats (mergeBatches rs).found_documents) :
    (∀ (rs' : List BatchResult) (net' : String → HttpOutcome),
        doc_score (runAudit rs' net')
          = pyRound2 (((14 - ((runAudit rs' net').missing_documents.card : ℚ)) / 14) * 100))
    ∧ (∀ net' : String → HttpOutcome,
        (runAudit [] net').missing_documents = catalogSet)
    ∧ catalogSet.card = 14
    ∧ (∀ net' : String → HttpOutcome, doc_score (runAudit [] net') = 0)
    ∧ (runAudit rs net).missing_documents = ∅
    ∧ doc_score (runAudit rs net) = 100 := by
  have hempty : ∀ net' : String → HttpOutcome,
      (runAudit [] net').missing_documents = catalogSet := by
    intro net'
    rw [runAudit_missing]
    have h0 : foundCats (mergeBatches ([] : List BatchResult)).found_documents = ∅ := by
      simp [mergeBatches, initialReport, foundCats]
    rw [h0, Finset.sdiff_empty]
  have hfull : (runAudit rs net).missing_documents = ∅ := by
    rw [runAudit_missing, Finset.sdiff_eq_empty_iff_subset]
    exact fun c hc => hcov c hc
  refine ⟨fun rs' net' => rfl, hempty, catalogSet_card, ?_, hfull, ?_⟩
  · intro net'
    rw [doc_score, hempty net', catalogSet_card]
    have harg : ((14 : ℚ) - ((14 : ℕ) : ℚ)) / 14 * 100 = 0 := by norm_num
    rw [harg]
    exact pyRound2_zero
  · rw [doc_score, hfull, Finset.card_empty]
    have harg : ((14 : ℚ) - ((0 : ℕ) : ℚ)) / 14 * 100 = 100 := by norm_num
    rw [harg]
    exact pyRound2_hundred

/-- Witness for C3 at a concrete batch list covering the whole catalog. -/
theorem C3_score_formula_witness :
    (∀ c ∈ catalogSet, c ∈ foundCats (mergeBatches [coveringBatch]).found_documents)
    ∧ ((runAudit [coveringBatch] (fun _ => HttpOutcome.failure)).missing_documents = ∅
      ∧ doc_score (runAudit [coveringBatch] (fun _ => HttpOutcome.failure)) = 100) := by
  have hcov : ∀ c ∈ catalogSet,
      c ∈ foundCats (mergeBatches [coveringBatch]).found_documents := by decide
  refine ⟨hcov, ?_, ?_⟩
  · exact (C3_score_formula [coveringBatch] (fun _ => HttpOutcome.failure) hcov).2.2.2.2.1
  · exact (C3_score_formula [coveringBatch] (fun _ => HttpOutcome.failure) hcov).2.2.2.2.2

/-- C4 counterexample: in a run with no extracted identifier the report keeps
the initial default check `{status: "N/A", url: "#"}`; no `Skipped`
VerificationResult is attached, contradicting the claim's otherwise-branch. -/
theorem C4_counterexample :
    (runAudit [] (fun _ => HttpOutcome.failure)).wras_online_check
      = { status := "N/A", online_id := none, url := "#" }
    ∧ ("N/A" : String) ≠ "Skipped" := by
  constructor
  · rfl
  · decide

/-- C4 (amended): after merging, if the retained WRAS claim carries a truthy
(non-`None`, non-empty) identifier the External Verifier is invoked and its
result attached; otherwise the report keeps the initial default
VerificationResult with status "N/A" and url "#". -/
theorem C4_verifier_invocation (rs rso : List BatchResult)
    (net neto : String → HttpOutcome) (id : String)
    (hid : (mergeBatches rs).wras_analysis.wras_id = some id) (hne : id ≠ "")
    (h0 : (mergeBatches rso).wras_analysis.wras_id = none
          ∨ (mergeBatches rso).wras_analysis.wras_id = some "") :
    (runAudit rs net).wras_online_check = verify_wras_online (some id) net
    ∧ (runAudit rso neto).wras_online_check
        = { status := "N/A", online_id := none, url := "#" } := by
  constructor
  · rw [runAudit]
    exact postProcess_check_of_some (mergeBatches rs) net id hid hne
  · rcases h0 with h0 | h0
    · rw [runAudit, postProcess_check_of_none _ neto h0, mergeBatches_check]
    · rw [runAudit, postProcess_check_of_empty _ neto h0, mergeBatches_check]

/-- Witness for C4 at a concrete positive run and a concrete empty run. -/
theorem C4_verifier_invocation_witness :
    ((mergeBatches [positiveBatch]).wras_analysis.wras_id = some "W123"
     ∧ ("W123" : String) ≠ ""
     ∧ (mergeBatches ([] : List BatchResult)).wras_analysis.wras_id = none)
    ∧ ((runAudit [positiveBatch] (fun _ => HttpOutcome.failure)).wras_online_check
        = verify_wras_online (some "W123") (fun _ => HttpOutcome.failure)
      ∧ (runAudit ([] : List BatchResult) (fun _ => HttpOutcome.failure)).wras_online_check
        = { status := "N/A", online_id := none, url := "#" }) := by
  refine ⟨⟨rfl, by decide, rfl⟩, ?_⟩
  exact C4_verifier_invocation [positiveBatch] [] (fun _ => HttpOutcome.failure)
    (fun _ => HttpOutcome.failure) "W123" rfl (by decide) (Or.inl rfl)

/-- C5: `verify_wras_online` skips empty and "N/A" identifiers without
consulting the network oracle; otherwise it is Active exactly when the HTTP
status is 200 and the body lacks the "No results found" marker, Not Found on
HTTP 200 with the marker, Error on a raised transport failure, and every
non-skipped outcome carries the constructed lookup URL. -/
theorem C5_verify_wras_online_spec (id : String) (net : String → HttpOutcome)
    (hne : id ≠ "") (hna : id ≠ "N/A") :
    (∀ n1 n2 : String → HttpOutcome,
        verify_wras_online (some "") n1 = verify_wras_online (some "") n2
        ∧ verify_wras_online (some "N/A") n1 = verify_wras_online (some "N/A") n2
        ∧ verify_wras_online none n1 = verify_wras_online none n2)
    ∧ verify_wras_online (some "") net
        = { status := "Skipped", online_id := none, url := "#" }
    ∧ verify_wras_online (some "N/A") net
        = { status := "Skipped", online_id := none, url := "#" }
    ∧ verify_wras_online none net
        = { status := "Skipped", online_id := none, url := "#" }
    ∧ ((verify_wras_online (some id) net).status = "Active"
        ↔ ∃ body, net (search_url id) = HttpOutcome.success 200 body
            ∧ containsMarker body = false)
    ∧ (∀ code body, net (search_url id) = HttpOutcome.success code body →
        code = 200 → containsMarker body = true →
        verify_wras_online (some id) net
          = { status := "Not Found", online_id := none, url := search_url id })
    ∧ (net (search_url id) = HttpOutcome.failure →
        verify_wras_online (some id) net
          = { status := "Error", online_id := none, url := search_url id })
    ∧ (verify_wras_online (some id) net).url = search_url id := by
  refine ⟨fun n1 n2 => ⟨rfl, rfl, rfl⟩, rfl, rfl, rfl, ?_, ?_, ?_, ?_⟩
  · cases hnet : net (search_url id) with
    | success code body =>
      have hv2 := verify_wras_success id net code body hne hna hnet
      by_cases hcond : code = 200 ∧ containsMarker body = false
      · rw [if_pos hcond] at hv2
        rw [hv2]
        constructor
        · intro _
          refine ⟨body, ?_, hcond.2⟩
          rw [hcond.1]
        · intro _
          rfl
      · rw [if_neg hcond] at hv2
        rw [hv2]
        constructor
        · intro hst
          simp at hst
        · rintro ⟨b, hb, hmk⟩
          injection hb with h1 h2
          rw [← h2] at hmk
          exact absurd ⟨h1, hmk⟩ hcond
    | failure =>
      have hv2 := verify_wras_failure id net hne hna hnet
      rw [hv2]
      constructor
      · intro hst
        simp at hst
      · rintro ⟨b, hb, _⟩
        simp at hb
  · cases hnet : net (search_url id) with
    | success code body =>
      intro c2 b2 hB h200 hmk
      have hv2 := verify_wras_success id net code body hne hna hnet
      injection hB with h1 h2
      rw [hv2]
      have hcond : ¬(code = 200 ∧ containsMarker body = false) := by
        rintro ⟨_, hmf⟩
        rw [h2] at hmf
        rw [hmk] at hmf
        exact Bool.noConfusion hmf
      rw [if_neg hcond]
    | failure =>
      intro c2 b2 hB _ _
      simp at hB
  · cases hnet : net (search_url id) with
    | success code body =>
      intro hfail
      simp at hfail
    | failure =>
      intro _
      exact verify_wras_failure id net hne hna hnet
  · cases hnet : net (search_url id) with
    | success code body =>
      have hv2 := verify_wras_success id net code body hne hna hnet
      rw [hv2]
      by_cases hcond : code = 200 ∧ containsMarker body = false
      · rw [if_pos hcond]
      · rw [if_neg hcond]
    | failure =>
      have hv2 := verify_wras_failure id net hne hna hnet
      rw [hv2]

/-- Witness for C5 at a concrete identifier and a failing network oracle. -/
theorem C5_verify_wras_online_spec_witness :
    (("12345" : String) ≠ "" ∧ ("12345" : String) ≠ "N/A")
    ∧ ((∀ n1 n2 : String → HttpOutcome,
          verify_wras_online (some "") n1 = verify_wras_online (some "") n2
          ∧ verify_wras_online (some "N/A") n1 = verify_wras_online (some "N/A") n2
          ∧ verify_wras_online none n1 = verify_wras_online none n2)
      ∧ verify_wras_online (some "") (fun _ => HttpOutcome.failure)
          = { status := "Skipped", online_id := none, url := "#" }
      ∧ verify_wras_online (some "N/A") (fun _ => HttpOutcome.failure)
          = { status := "Skipped", online_id := none, url := "#" }
      ∧ verify_wras_online none (fun _ => HttpOutcome.failure)
          = { status := "Skipped", online_id := none, url := "#" }
      ∧ ((verify_wras_online (some "12345") (fun _ => HttpOutcome.failure)).status = "Active"
          ↔ ∃ body, (fun _ => HttpOutcome.failure) (search_url "12345")
                = HttpOutcome.success 200 body
              ∧ containsMarker body = false)
      ∧ (∀ code body, (fun _ => HttpOutcome.failure) (search_url "12345")
            = HttpOutcome.success code body →
          code = 200 → containsMarker body = true →
          verify_wras_online (some "12345") (fun _ => HttpOutcome.failure)
            = { status := "Not Found", online_id := none, url := search_url "12345" })
      ∧ ((fun _ => HttpOutcome.failure) (search_url "12345") = HttpOutcome.failure →
          verify_wras_online (some "12345") (fun _ => HttpOutcome.failure)
            = { status := "Error", online_id := none, url := search_url "12345" })
      ∧ (verify_wras_online (some "12345") (fun _ => HttpOutcome.failure)).url
          = search_url "12345") := by
  refine ⟨⟨by decide, by decide⟩, ?_⟩
  exact C5_verify_wras_online_spec "12345" (fun _ => HttpOutcome.failure)
    (by decide) (by decide)

/-- C6: with a non-raising text-layer read, extraction returns the
text-layer-tagged result (payload capped at 15000) exactly when the
concatenated stripped text of the first min(3, pageCount) pages exceeds 100
characters, and otherwise returns the OCR fallback restricted to zero-based
pages [0, 1, 2] with imagery suppressed, page markdowns joined in order with
blank-line separators under the same cap. -/
theorem C6_hybrid_extraction (name : String) (env : ExtractionEnv)
    (pages : List (Option String)) (mds : List String)
    (hok : env.pdfRead = Except.ok pages)
    (hocr : env.ocr [0, 1, 2] false = Except.ok mds) :
    extract_text_smart name env =
      (if 100 < (concatPages pages).trim.length then
        "FILE_NAME: " ++ name ++ "\n(Extracted via Text Layer)\n"
          ++ pyTake (concatPages pages) 15000
      else
        "FILE_NAME: " ++ name ++ "\n(Extracted via Mistral OCR)\n"
          ++ pyTake (ocrJoin mds) 15000)
    ∧ (pyTake (concatPages pages) 15000).length ≤ 15000
    ∧ (pyTake (ocrJoin mds) 15000).length ≤ 15000 := by
  refine ⟨?_, pyTake_length_le _ _, pyTake_length_le _ _⟩
  simp only [extract_text_smart, hok]
  by_cases hlen : 100 < (concatPages pages).trim.length
  · simp only [if_pos hlen]
  · simp only [if_neg hlen, hocr]

/-- Witness for C6 at a concrete short-text file whose OCR succeeds. -/
theorem C6_hybrid_extraction_witness :
    (sampleEnv.pdfRead = Except.ok [some "short text"]
     ∧ sampleEnv.ocr [0, 1, 2] false = Except.ok ["ocr page"])
    ∧ (extract_text_smart "doc.pdf" sampleEnv =
        (if 100 < (concatPages [some "short text"]).trim.length then
          "FILE_NAME: " ++ "doc.pdf" ++ "\n(Extracted via Text Layer)\n"
            ++ pyTake (concatPages [some "short text"]) 15000
        else
          "FILE_NAME: " ++ "doc.pdf" ++ "\n(Extracted via Mistral OCR)\n"
            ++ pyTake (ocrJoin ["ocr page"]) 15000)
      ∧ (pyTake (concatPages [some "short text"]) 15000).length ≤ 15000
      ∧ (pyTake (ocrJoin ["ocr page"]) 15000).length ≤ 15000) :=
  ⟨⟨rfl, rfl⟩,
    C6_hybrid_extraction "doc.pdf" sampleEnv [some "short text"] ["ocr page"] rfl rfl⟩

/-- C7: extraction is total — for every oracle behaviour the result is one of
the three sentinel string forms (text-layer result, OCR result, or the
explanatory "Error reading ..." string); no exception escapes. -/
theorem C7_extraction_total (name : String) (env : ExtractionEnv) :
    (∃ p, extract_text_smart name env
        = "FILE_NAME: " ++ name ++ "\n(Extracted via Text Layer)\n" ++ p)
    ∨ (∃ p, extract_text_smart name env
        = "FILE_NAME: " ++ name ++ "\n(Extracted via Mistral OCR)\n" ++ p)
    ∨ (∃ e, extract_text_smart name env = "Error reading " ++ name ++ ": " ++ e) := by
  cases hpdf : env.pdfRead with
  | ok pages =>
    by_cases hlen : 100 < (concatPages pages).trim.length
    · left
      refine ⟨pyTake (concatPages pages) 15000, ?_⟩
      simp only [extract_text_smart, hpdf]
      rw [if_pos hlen]
    · cases hocr : env.ocr [0, 1, 2] false with
      | ok mds =>
        right; left
        refine ⟨pyTake (ocrJoin mds) 15000, ?_⟩
        simp only [extract_text_smart, hpdf]
        rw [if_neg hlen, hocr]
      | error e =>
        right; right
        refine ⟨e, ?_⟩
        simp only [extract_text_smart, hpdf]
        rw [if_neg hlen, hocr]
  | error err =>
    cases hocr : env.ocr [0, 1, 2] false with
    | ok mds =>
      right; left
      refine ⟨pyTake (ocrJoin mds) 15000, ?_⟩
      simp only [extract_text_smart, hpdf]
      rw [hocr]
    | error e =>
      right; right
      refine ⟨e, ?_⟩
      simp only [extract_text_smart, hpdf]
      rw [hocr]

/-- C8 counterexample: when the parsed top-level JSON value is the empty
array, `data[0]` has no first element to return — the indexing raises and
the handler returns the empty object instead, so the claim's array clause
fails at `[]`. -/
theorem C8_counterexample :
    ¬ (∀ xs : List Json,
        xs.head? = some (analyze_batch (CallOutcome.response (some (Json.arr xs))))) := by
  intro h
  have h0 := h []
  simp at h0

/-- C8 (amended): `analyze_batch` never raises — a remote-call exception or a
JSON parse failure yields the empty object `{}` (which merges as a no-op, so
the failing batch contributes zero findings and other batches are
unaffected); a parsed top-level NONEMPTY array yields its first element, and
the empty array also yields `{}` via the same exception handler. -/
theorem C8_analyze_batch_failsoft :
    analyze_batch CallOutcome.exn = Json.obj []
    ∧ analyze_batch (CallOutcome.response none) = Json.obj []
    ∧ (∀ (x : Json) (xs : List Json),
        analyze_batch (CallOutcome.response (some (Json.arr (x :: xs)))) = x)
    ∧ analyze_batch (CallOutcome.response (some (Json.arr []))) = Json.obj []
    ∧ (∀ acc : FinalReport, mergeStep acc emptyBatchResult = acc) := by
  refine ⟨rfl, rfl, fun x xs => rfl, rfl, ?_⟩
  intro acc
  cases acc with
  | mk iso wras found missing check =>
    simp [mergeStep, emptyBatchResult]

/-- C9: splitting the N extracted texts into batches of 8 produces
ceil(N/8) = (N+7)/8 batches, each of at most 8 items, whose concatenation
in order is exactly the input list. -/
theorem C9_batching_partition (l : List String) :
    (batches l).length = (l.length + 7) / 8
    ∧ (∀ b ∈ batches l, b.length ≤ 8)
    ∧ (batches l).flatten = l := by
  rw [batches_eq_chunks8]
  exact ⟨chunks8_length l, chunks8_mem_length l, chunks8_flatten l⟩

/-- C10: on the compliance-report page, the compliance percentage equals
(number of rows whose Status contains "Comply" but not "Not",
case-insensitively) / (total rows) × 100, the division is guarded so an
empty table yields 0.0, the percentage lies in [0, 100], and the
non-compliance count (total minus compliant) is non-negative. -/
theorem C10_compliance_metrics (rows : List ComplianceRow) (hpos : 0 < rows.length) :
    compliance_pct [] = 0
    ∧ compliance_pct rows = ((num_comply rows : ℚ) / (rows.length : ℚ)) * 100
    ∧ 0 ≤ compliance_pct rows
    ∧ compliance_pct rows ≤ 100
    ∧ 0 ≤ num_non_comply rows
    ∧ num_comply rows ≤ rows.length := by
  have hle : num_comply rows ≤ rows.length := num_comply_le rows
  have hcast : (num_comply rows : ℚ) ≤ (rows.length : ℚ) := by exact_mod_cast hle
  refine ⟨rfl, ?_, ?_, ?_, ?_, hle⟩
  · simp [compliance_pct, hpos]
  · rw [compliance_pct, if_pos hpos]
    positivity
  · rw [compliance_pct, if_pos hpos]
    have hpos' : (0 : ℚ) < rows.length := by
      exact_mod_cast hpos
    have h1 : (num_comply rows : ℚ) / (rows.length : ℚ) ≤ 1 := by
      rw [div_le_one hpos']
      exact hcast
    nlinarith
  · rw [num_non_comply]
    omega

/-- Witness for C10 at a concrete two-row table (one compliant, one not). -/
theorem C10_compliance_metrics_witness :
    0 < ([⟨"BS EN 558-1", "Comply", "ok"⟩,
          ⟨"ISO 1461", "Not Comply", "excluded"⟩] : List ComplianceRow).length
    ∧ (compliance_pct [] = 0
      ∧ compliance_pct [⟨"BS EN 558-1", "Comply", "ok"⟩, ⟨"ISO 1461", "Not Comply", "excluded"⟩]
          = ((num_comply [⟨"BS EN 558-1", "Comply", "ok"⟩, ⟨"ISO 1461", "Not Comply", "excluded"⟩] : ℚ)
             / (([⟨"BS EN 558-1", "Comply", "ok"⟩, ⟨"ISO 1461", "Not Comply", "excluded"⟩] : List ComplianceRow).length : ℚ)) * 100
      ∧ 0 ≤ compliance_pct [⟨"BS EN 558-1", "Comply", "ok"⟩, ⟨"ISO 1461", "Not Comply", "excluded"⟩]
      ∧ compliance_pct [⟨"BS EN 558-1", "Comply", "ok"⟩, ⟨"ISO 1461", "Not Comply", "excluded"⟩] ≤ 100
      ∧ 0 ≤ num_non_comply [⟨"BS EN 558-1", "Comply", "ok"⟩, ⟨"ISO 1461", "Not Comply", "excluded"⟩]
      ∧ num_comply [⟨"BS EN 558-1", "Comply", "ok"⟩, ⟨"ISO 1461", "Not Comply", "excluded"⟩]
          ≤ ([⟨"BS EN 558-1", "Comply", "ok"⟩, ⟨"ISO 1461", "Not Comply", "excluded"⟩] : List ComplianceRow).length) :=
  ⟨by decide, C10_compliance_metrics _ (by decide)⟩

end NamaAudit
